import Mathlib

/-!
Verification development for the email LLM processor
(`email_summary/email_llm_processor.py`).

Python text values are modelled as `List Char` (Python string indices are
character indices), clock readings from `time.time()` as rationals, and the
mutable `usage_tracker` dict as an explicit state record threaded through the
translated operations.  `time.sleep` is modelled by recording the requested
sleep durations and by taking the `time.time()` readings that follow a sleep
as extra parameters of the step function.
-/

namespace EmailLLM

/-- Python text is a sequence of characters. -/
abbrev Chars := List Char

/-! ### Python string primitives on `List Char` -/

/-- Index of the first occurrence of `needle` (Python `str.find`, with
`none` for `-1`). -/
def subAt (needle : Chars) : Chars → Option Nat
  | [] => if needle = [] then some 0 else none
  | c :: rest =>
    if needle.isPrefixOf (c :: rest) then some 0
    else (subAt needle rest).map (· + 1)

/-- Python `needle in hay` substring test. -/
def containsSub (needle hay : Chars) : Bool := (subAt needle hay).isSome

/-- Python `hay.find(needle, i)`: first occurrence at position `i` or later. -/
def subAtFrom (needle hay : Chars) (i : Nat) : Option Nat :=
  (subAt needle (hay.drop i)).map (· + i)

/-- Index of the first occurrence of the character `c` (Python `find` of a
one-character needle). -/
def firstIdx (c : Char) : Chars → Option Nat
  | [] => none
  | x :: rest => if x = c then some 0 else (firstIdx c rest).map (· + 1)

/-- Index of the last occurrence of the character `c` (Python `rfind` of a
one-character needle). -/
def lastIdx (c : Char) : Chars → Option Nat
  | [] => none
  | x :: rest =>
    match lastIdx c rest with
    | some i => some (i + 1)
    | none => if x = c then some 0 else none

/-- Python `'c' in hay` for a one-character needle. -/
def containsChar (c : Char) (hay : Chars) : Bool := (firstIdx c hay).isSome

/-- Python slice `s[a:b]` for `0 ≤ a, b` (clamped, empty when `a ≥ b`). -/
def sliceL (xs : Chars) (a b : Nat) : Chars := (xs.take b).drop a

/-- Python `str.strip()`: remove leading and trailing whitespace. -/
def stripL (xs : Chars) : Chars :=
  ((xs.dropWhile Char.isWhitespace).reverse.dropWhile Char.isWhitespace).reverse

/-- Fuel-driven worker for `splitOnL`; the fuel is an upper bound on the
number of separator occurrences, so `splitOnL` below always runs to
completion for the non-empty separators the source uses. -/
def splitOnFuel (sep : Chars) : Nat → Chars → List Chars
  | 0, xs => [xs]
  | fuel + 1, xs =>
    match subAt sep xs with
    | none => [xs]
    | some i => xs.take i :: splitOnFuel sep fuel (xs.drop (i + sep.length))

/-- Python `s.split(sep)` for a non-empty separator. -/
def splitOnL (sep xs : Chars) : List Chars := splitOnFuel sep (xs.length + 1) xs

/-- Python `sep.join(parts)`. -/
def joinSep (sep : Chars) : List Chars → Chars
  | [] => []
  | [x] => x
  | x :: y :: rest => x ++ sep ++ joinSep sep (y :: rest)

/-- Python `s.replace(sep, repl)` (non-overlapping, left to right). -/
def replaceAll (sep repl xs : Chars) : Chars := joinSep repl (splitOnL sep xs)

/-! ### UsageTracker state (`self.usage_tracker` and the `google` limits)

The processor keeps one mutable dict of counters; `_check_rate_limits` and
`_update_usage_tracker` are its only mutators.  The configured limits are the
`google` entry of `self.rate_limits`: 15 requests/minute, 250000
tokens/minute, 1000 requests/day, 4.0 seconds minimum delay. -/

/-- The `self.usage_tracker` dict: three counters and two clock readings. -/
structure UsageTracker where
  requests_this_minute : Nat
  tokens_this_minute : Nat
  requests_today : Nat
  last_request_time : Rat
  minute_start_time : Rat
deriving DecidableEq

/-- The tracker as `__init__` builds it, with `t0` the `time.time()` reading
taken at construction. -/
def initTracker (t0 : Rat) : UsageTracker :=
  { requests_this_minute := 0
    tokens_this_minute := 0
    requests_today := 0
    last_request_time := 0
    minute_start_time := t0 }

/-- The message of the exception `_check_rate_limits` raises on the daily cap. -/
def dailyLimitMsg : String := "Daily request limit (1000) exceeded. Please try again tomorrow."

/-- First block of `_check_rate_limits`: reset the minute counters when a
minute has passed since `minute_start_time` (`current_time` is `t`). -/
def minuteReset (st : UsageTracker) (t : Rat) : UsageTracker :=
  if 60 ≤ t - st.minute_start_time then
    { st with requests_this_minute := 0, tokens_this_minute := 0, minute_start_time := t }
  else st

/-- Request-per-minute block of `_check_rate_limits`: on hitting the request
cap it sleeps out the window, zeroes both minute counters and restamps
`minute_start_time` with the post-sleep `time.time()` reading `s1`.  Returns
the sleeps performed and the new state. -/
def requestsWait (st : UsageTracker) (t s1 : Rat) : List Rat × UsageTracker :=
  if 15 ≤ st.requests_this_minute then
    if 0 < 60 - (t - st.minute_start_time) then
      ([60 - (t - st.minute_start_time)],
        { st with requests_this_minute := 0, tokens_this_minute := 0, minute_start_time := s1 })
    else ([], st)
  else ([], st)

/-- Token-per-minute block of `_check_rate_limits`: on hitting the token cap
it sleeps out the window, zeroes `tokens_this_minute` only and restamps
`minute_start_time` with the post-sleep reading `s2`
(`requests_this_minute` is left as it was, unlike in `requestsWait`). -/
def tokensWait (st : UsageTracker) (t s2 : Rat) : List Rat × UsageTracker :=
  if 250000 ≤ st.tokens_this_minute then
    if 0 < 60 - (t - st.minute_start_time) then
      ([60 - (t - st.minute_start_time)],
        { st with tokens_this_minute := 0, minute_start_time := s2 })
    else ([], st)
  else ([], st)

/-- Final block of `_check_rate_limits`: enforce the 4-second minimum delay
since `last_request_time` (a sleep only; no state change). -/
def minDelayWait (st : UsageTracker) (t : Rat) : List Rat :=
  if t - st.last_request_time < 4 then [4 - (t - st.last_request_time)] else []

/-- Outcome of one `_check_rate_limits` call: the sleep durations performed,
and either the daily-limit exception or the updated tracker. -/
structure CheckResult where
  sleeps : List Rat
  result : Except String UsageTracker

/-- `_check_rate_limits`, with `t` the `current_time = time.time()` reading
taken on entry and `s1`, `s2` the `time.time()` readings taken after the
request-cap and token-cap sleeps respectively. -/
def checkRateLimits (st : UsageTracker) (t s1 s2 : Rat) : CheckResult :=
  if 1000 ≤ (minuteReset st t).requests_today then
    { sleeps := [], result := .error dailyLimitMsg }
  else
    { sleeps :=
        (requestsWait (minuteReset st t) t s1).1 ++
        (tokensWait (requestsWait (minuteReset st t) t s1).2 t s2).1 ++
        minDelayWait (tokensWait (requestsWait (minuteReset st t) t s1).2 t s2).2 t
      result := .ok (tokensWait (requestsWait (minuteReset st t) t s1).2 t s2).2 }

/-- `_update_usage_tracker(tokens_used)` with `t` the `time.time()` reading. -/
def updateUsageTracker (st : UsageTracker) (tokens : Nat) (t : Rat) : UsageTracker :=
  { st with
    requests_this_minute := st.requests_this_minute + 1
    tokens_this_minute := st.tokens_this_minute + tokens
    requests_today := st.requests_today + 1
    last_request_time := t }

/-- The `.ok` state of a check, when there is one. -/
def resultOk? (c : CheckResult) : Option UsageTracker :=
  match c.result with
  | .ok st => some st
  | .error _ => none

/-- Clock readings and token estimate for one `_call_google_api` round trip:
`t`, `s1`, `s2` feed `_check_rate_limits` and `tEnd` is the `time.time()`
reading inside `_update_usage_tracker`. -/
structure CallTimes where
  tokens : Nat
  t : Rat
  s1 : Rat
  s2 : Rat
  tEnd : Rat
deriving DecidableEq

/-- One successful `_call_google_api` as it touches the tracker: admission
check, then (after the HTTP call) the usage update. -/
def googleCallStep (st : UsageTracker) (c : CallTimes) : Except String UsageTracker :=
  match (checkRateLimits st c.t c.s1 c.s2).result with
  | .error e => .error e
  | .ok st1 => .ok (updateUsageTracker st1 c.tokens c.tEnd)

/-- A run of successive `_call_google_api` calls on one tracker, stopping at
the first raised exception. -/
def runCalls : UsageTracker → List CallTimes → Except String UsageTracker
  | st, [] => .ok st
  | st, c :: cs =>
    match googleCallStep st c with
    | .error e => .error e
    | .ok st1 => runCalls st1 cs

/-! ### JSON values and a model of `json.loads`

`_parse_batch_response` feeds a substring to `json.loads`.  `Json` models the
decoded Python value; `jsonLoads` is a recursive-descent model of the parser
(objects, arrays, strings with the standard escapes, numbers kept as their
raw token, `true`/`false`/`null`).  Failure (`none`) models
`json.JSONDecodeError`. -/

/-- The `{` character (kept out of string literals). -/
def lbrace : Char := Char.ofNat 123

/-- The `}` character (kept out of string literals). -/
def rbrace : Char := Char.ofNat 125

/-- A decoded JSON value.  Numbers keep their raw source token: no claim
depends on numeric values, only on the shape of the decoded object. -/
inductive Json where
  | null
  | bool (b : Bool)
  | num (raw : Chars)
  | str (s : Chars)
  | arr (items : List Json)
  | obj (fields : List (Chars × Json))

/-- JSON whitespace. -/
def jsonWsChar (c : Char) : Bool := c = ' ' || c = '\t' || c = '\n' || c = '\r'

/-- Skip JSON whitespace. -/
def jsonWs (s : Chars) : Chars := s.dropWhile jsonWsChar

/-- Value of a hex digit. -/
def hexVal (c : Char) : Option Nat :=
  if c.isDigit then some (c.toNat - 48)
  else if 'a' ≤ c ∧ c ≤ 'f' then some (c.toNat - 87)
  else if 'A' ≤ c ∧ c ≤ 'F' then some (c.toNat - 55)
  else none

/-- Parse the body of a JSON string after its opening quote, returning the
decoded characters and the input after the closing quote.  `\uXXXX` is
decoded as a single code point (surrogate pairing is out of scope). -/
def jsonStrChars : Nat → Chars → Option (Chars × Chars)
  | 0, _ => none
  | fuel + 1, s =>
    match s with
    | [] => none
    | c :: rest =>
      if c = '"' then some ([], rest)
      else if c = '\\' then
        match rest with
        | [] => none
        | e :: rest2 =>
          let esc : Option (Char × Chars) :=
            if e = '"' then some ('"', rest2)
            else if e = '\\' then some ('\\', rest2)
            else if e = '/' then some ('/', rest2)
            else if e = 'b' then some (Char.ofNat 8, rest2)
            else if e = 'f' then some (Char.ofNat 12, rest2)
            else if e = 'n' then some ('\n', rest2)
            else if e = 'r' then some ('\r', rest2)
            else if e = 't' then some ('\t', rest2)
            else if e = 'u' then
              match rest2 with
              | h1 :: h2 :: h3 :: h4 :: rest3 =>
                match hexVal h1, hexVal h2, hexVal h3, hexVal h4 with
                | some a, some b, some c2, some d =>
                  some (Char.ofNat (((a * 16 + b) * 16 + c2) * 16 + d), rest3)
                | _, _, _, _ => none
              | _ => none
            else none
          match esc with
          | none => none
          | some (ch, r2) => (jsonStrChars fuel r2).map (fun p => (ch :: p.1, p.2))
      else (jsonStrChars fuel rest).map (fun p => (c :: p.1, p.2))

/-- Optional fraction part of a JSON number. -/
def jsonFrac (s : Chars) : Option (Chars × Chars) :=
  match s with
  | [] => some ([], [])
  | c :: r =>
    if c = '.' then
      if r.takeWhile Char.isDigit = [] then none
      else some ('.' :: r.takeWhile Char.isDigit, r.drop (r.takeWhile Char.isDigit).length)
    else some ([], s)

/-- Optional exponent part of a JSON number. -/
def jsonExp (s : Chars) : Option (Chars × Chars) :=
  match s with
  | [] => some ([], [])
  | c :: r =>
    if c = 'e' ∨ c = 'E' then
      match r with
      | [] => none
      | c2 :: r2 =>
        if c2 = '+' ∨ c2 = '-' then
          if r2.takeWhile Char.isDigit = [] then none
          else some (c :: c2 :: r2.takeWhile Char.isDigit,
            r2.drop (r2.takeWhile Char.isDigit).length)
        else
          if r.takeWhile Char.isDigit = [] then none
          else some (c :: r.takeWhile Char.isDigit, r.drop (r.takeWhile Char.isDigit).length)
    else some ([], s)

/-- Parse a JSON number token, returning the raw token and the rest. -/
def jsonNum (s : Chars) : Option (Chars × Chars) :=
  let sign : Chars × Chars :=
    match s with
    | [] => ([], [])
    | c :: r => if c = '-' then ([c], r) else ([], s)
  let ds := sign.2.takeWhile Char.isDigit
  if ds = [] then none
  else
    match jsonFrac (sign.2.drop ds.length) with
    | none => none
    | some (fr, s3) =>
      match jsonExp s3 with
      | none => none
      | some (ex, s4) => some (sign.1 ++ ds ++ fr ++ ex, s4)

/-- Parser mode: a whole value, the members of an object after its `{`, or
the items of an array after its `[`. -/
inductive JMode where
  | value
  | members (acc : List (Chars × Json))
  | items (acc : List Json)

/-- The recursive-descent JSON parser, fuelled for termination (the fuel in
`jsonLoads` is always sufficient: every two successive recursive calls
consume at least one input character). -/
def jsonRun : Nat → JMode → Chars → Option (Json × Chars)
  | 0, _, _ => none
  | fuel + 1, .value, s =>
    match jsonWs s with
    | [] => none
    | c :: r =>
      if c = lbrace then
        match jsonWs r with
        | [] => none
        | c2 :: r2 =>
          if c2 = rbrace then some (.obj [], r2)
          else jsonRun fuel (.members []) (c2 :: r2)
      else if c = '[' then
        match jsonWs r with
        | [] => none
        | c2 :: r2 =>
          if c2 = ']' then some (.arr [], r2)
          else jsonRun fuel (.items []) (c2 :: r2)
      else if c = '"' then
        (jsonStrChars (r.length + 1) r).map (fun p => (.str p.1, p.2))
      else if "true".data.isPrefixOf (c :: r) then some (.bool true, (c :: r).drop 4)
      else if "false".data.isPrefixOf (c :: r) then some (.bool false, (c :: r).drop 5)
      else if "null".data.isPrefixOf (c :: r) then some (.null, (c :: r).drop 4)
      else (jsonNum (c :: r)).map (fun p => (.num p.1, p.2))
  | fuel + 1, .members acc, s =>
    match jsonWs s with
    | [] => none
    | c :: r =>
      if c = '"' then
        match jsonStrChars (r.length + 1) r with
        | none => none
        | some (key, r2) =>
          match jsonWs r2 with
          | [] => none
          | c3 :: r3 =>
            if c3 = ':' then
              match jsonRun fuel .value r3 with
              | none => none
              | some (v, r4) =>
                match jsonWs r4 with
                | [] => none
                | c5 :: r5 =>
                  if c5 = ',' then jsonRun fuel (.members (acc ++ [(key, v)])) r5
                  else if c5 = rbrace then some (.obj (acc ++ [(key, v)]), r5)
                  else none
            else none
      else none
  | fuel + 1, .items acc, s =>
    match jsonRun fuel .value s with
    | none => none
    | some (v, r) =>
      match jsonWs r with
      | [] => none
      | c :: r2 =>
        if c = ',' then jsonRun fuel (.items (acc ++ [v])) r2
        else if c = ']' then some (.arr (acc ++ [v]), r2)
        else none

/-- Model of `json.loads`: parse one value and require only whitespace after
it; `none` models `json.JSONDecodeError`. -/
def jsonLoads (s : Chars) : Option Json :=
  match jsonRun (2 * s.length + 2) .value s with
  | some (v, rest) => if jsonWs rest = [] then some v else none
  | none => none

/-- Last binding of a key in an association list (later duplicate keys
override earlier ones, as in a Python dict built by `json.loads`). -/
def lastAssoc : List (Chars × Json) → Chars → Option Json
  | [], _ => none
  | kv :: rest, key =>
    match lastAssoc rest key with
    | some v => some v
    | none => if kv.1 = key then some kv.2 else none

/-- Python `d[k]` / `k in d` on a decoded object (`none` on non-objects or a
missing key). -/
def jsonLookup (j : Json) (key : Chars) : Option Json :=
  match j with
  | .obj kvs => lastAssoc kvs key
  | _ => none

/-- Is a decoded value Python `None`? -/
def jsonIsNull : Json → Bool
  | .null => true
  | _ => false

/-! ### `_parse_batch_response` -/

/-- Ellipsis marker the source appends when truncating. -/
def ellipsisL : Chars := "...".data

/-- Key `comprehensive_summary`. -/
def csKey : Chars := "comprehensive_summary".data

/-- Key `high_priority_emails`. -/
def hpKey : Chars := "high_priority_emails".data

/-- Key `action_items`. -/
def aiKey : Chars := "action_items".data

/-- Key `email_categories`. -/
def ecKey : Chars := "email_categories".data

/-- Key `processing_notes`. -/
def pnKey : Chars := "processing_notes".data

/-- The quoted key the decode-error branch scans for. -/
def quotedCsKey : Chars := "\"comprehensive_summary\"".data

/-- The markdown fence with language tag. -/
def fenceJsonL : Chars := "```json".data

/-- The bare markdown fence. -/
def fenceL : Chars := "```".data

/-- Fence stripping at the top of `_parse_batch_response`: when `'```json'`
occurs, both `'```json'` and `'```'` are replaced by the empty string. -/
def stripFences (resp : Chars) : Chars :=
  if containsSub fenceJsonL resp then
    replaceAll fenceL [] (replaceAll fenceJsonL [] resp)
  else resp

/-- The stripped substring from the first `{` to the last `}` that is handed
to `json.loads` (both guards hold when this is used). -/
def jsonCandidate (r : Chars) : Chars :=
  stripL (sliceL r ((firstIdx lbrace r).getD 0) ((lastIdx rbrace r).getD 0 + 1))

/-- The fully-shaped fallback dict every non-`json.loads` branch returns:
a summary value plus empty lists, an empty category map and a note. -/
def mkFallbackObj (summary : Json) (notes : Chars) : Json :=
  .obj [(csKey, summary), (hpKey, .arr []), (aiKey, .arr []), (ecKey, .obj []),
    (pnKey, .str notes)]

/-- Note text of the decode-error branches.  The source interpolates the
`json.JSONDecodeError` text into this message; the exception text itself is
elided here. -/
def decodeNoteMsg : Chars := "JSON parsing error. Using extracted summary instead.".data

/-- The decode-error branch's literal scan for the quoted key, the colon
after it, and the next two quotes; yields the quoted value when its strip is
non-empty. -/
def extractedSummary (r : Chars) : Option Chars :=
  if containsSub csKey r then
    match subAt quotedCsKey r with
    | none => none
    | some ks =>
      match subAtFrom ":".data r ks with
      | none => none
      | some cp =>
        match subAtFrom "\"".data r cp with
        | none => none
        | some qs =>
          match subAtFrom "\"".data r (qs + 1) with
          | none => none
          | some qe =>
            if stripL (sliceL r (qs + 1) qe) = [] then none
            else some (sliceL r (qs + 1) qe)
  else none

/-- The `json.JSONDecodeError` handler: try the literal summary extraction,
otherwise fall back to the first 200 characters (plus ellipsis when longer),
re-truncated at 1000 characters. -/
def decodeErrBranch (r : Chars) : Json :=
  match extractedSummary r with
  | some s => mkFallbackObj (.str s) decodeNoteMsg
  | none =>
    let summary := if 200 < r.length then r.take 200 ++ ellipsisL else r
    mkFallbackObj
      (.str (if 1000 < summary.length then summary.take 1000 ++ ellipsisL else summary))
      decodeNoteMsg

/-- The no-brace branch: the raw text truncated at 500 characters becomes the
summary. -/
def noBraceBranch (r : Chars) : Json :=
  mkFallbackObj (.str (if 500 < r.length then r.take 500 ++ ellipsisL else r))
    "Response parsing failed".data

/-- `_parse_batch_response(response)`: strip fences; when both braces occur,
decode the brace-delimited substring and return the decoded object as-is on
success or run the decode-error handler on failure; otherwise build the
no-brace fallback. -/
def parseBatchResponse (resp : Chars) : Json :=
  if containsChar lbrace (stripFences resp) && containsChar rbrace (stripFences resp) then
    match jsonLoads (jsonCandidate (stripFences resp)) with
    | some v => v
    | none => decodeErrBranch (stripFences resp)
  else noBraceBranch (stripFences resp)

/-- The `json.loads` attempt inside `_parse_batch_response`, viewed on its
own: `some` exactly when the brace-guarded decode succeeds. -/
def attemptJson (resp : Chars) : Option Json :=
  if containsChar lbrace (stripFences resp) && containsChar rbrace (stripFences resp) then
    jsonLoads (jsonCandidate (stripFences resp))
  else none

/-- Do `high_priority_emails`, `action_items` and `email_categories` all map
to non-null values in the returned dict? -/
def hasAnalysisKeys (j : Json) : Bool :=
  [hpKey, aiKey, ecKey].all fun k =>
    match jsonLookup j k with
    | some v => !jsonIsNull v
    | none => false

/-! ### `_parse_extracted_file` -/

/-- One parsed email record (the dict with keys
`title`/`sender`/`date`/`text`). -/
structure EmailRec where
  title : Chars
  sender : Chars
  date : Chars
  text : Chars
deriving DecidableEq

/-- `section.split(label)[1].split('\n')[0] if label in section else dflt`,
then `.strip()` — the labelled-line extraction used for title, sender and
date. -/
def labelField (label dflt s : Chars) : Chars :=
  stripL (if containsSub label s then
    (splitOnL "\n".data ((splitOnL label s).getD 1 [])).headD []
  else dflt)

/-- Title extraction (`'Title: '`, default `'No Subject'`). -/
def sectionTitle (s : Chars) : Chars := labelField "Title: ".data "No Subject".data s

/-- Sender extraction (`'From: '`, default `'Unknown Sender'`). -/
def sectionSender (s : Chars) : Chars := labelField "From: ".data "Unknown Sender".data s

/-- Date extraction (`'Date: '`, default `'Unknown Date'`). -/
def sectionDate (s : Chars) : Chars := labelField "Date: ".data "Unknown Date".data s

/-- The record-boundary marker: a run of 50 `=` characters. -/
def eqMarker : Chars := List.replicate 50 '='

/-- Content extraction: everything after the first `Content:` up to the `=`
marker (or the end of the section), stripped; default
`'No content available'` when the label is absent. -/
def sectionContent (s : Chars) : Chars :=
  if containsSub "Content:".data s then
    stripL (sliceL s ((subAt "Content:".data s).getD 0 + 8) ((subAt eqMarker s).getD s.length))
  else "No content available".data

/-- The loop body of `_parse_extracted_file` for one section: whitespace-only
sections are skipped, and a section is appended exactly when both its
extracted title and its extracted text are truthy (non-empty). -/
def parseSection (s : Chars) : Option EmailRec :=
  if stripL s = [] then none
  else
    if sectionTitle s ≠ [] ∧ sectionContent s ≠ [] then
      some ⟨sectionTitle s, sectionSender s, sectionDate s, sectionContent s⟩
    else none

/-- `_parse_extracted_file` on the file's contents: split on `'EMAIL '`,
drop the header before the first occurrence, parse each section. -/
def parseExtractedFile (content : Chars) : List EmailRec :=
  ((splitOnL "EMAIL ".data content).drop 1).filterMap parseSection

/-! ### `_create_batch_analysis_prompt` -/

/-- The part of a numbered per-record block before the content: number,
subject, sender and date lines, ending in the `- Content: ` label. -/
def emailBlockHead (i : Nat) (e : EmailRec) : Chars :=
  "\nEmail ".data ++ (Nat.repr i).data ++ ":\n- Subject: ".data ++ e.title ++
  "\n- From: ".data ++ e.sender ++ "\n- Date: ".data ++ e.date ++
  "\n- Content: ".data

/-- The numbered per-record block of the prompt.  The f-string truncates the
content at 500 characters and always appends `...` after it. -/
def emailBlock (i : Nat) (e : EmailRec) : Chars :=
  emailBlockHead i e ++ (e.text.take 500 ++ ellipsisL)

/-- Modelled from the spec's words (§4.4): the per-record block as the spec
describes it for content within the 500-character bound — the content
appears as-is, with no cut marker.  Used only to state the spec's claim, for
comparison with `emailBlock` above (which is translated from the source). -/
def specBlockNoMarker (i : Nat) (e : EmailRec) : Chars :=
  emailBlockHead i e ++ e.text

/-- `[lbrace]` as text. -/
def lbs : Chars := [lbrace]

/-- `[rbrace]` as text. -/
def rbs : Chars := [rbrace]

/-- The fixed JSON-skeleton instruction block of the prompt (the doubled
braces of the source f-string denote literal braces). -/
def jsonTemplate : Chars :=
  lbs ++ "\n    \"comprehensive_summary\": \"A 3-4 paragraph summary of all emails received, highlighting main themes and patterns\",\n    \"high_priority_emails\": [\n        ".data ++ lbs ++
  "\n            \"email_number\": 1,\n            \"subject\": \"Email subject\",\n            \"sender\": \"Sender email\",\n            \"priority_level\": \"high/medium\",\n            \"reason_for_priority\": \"Why this email is important\",\n            \"key_points\": [\"Point 1\", \"Point 2\", \"Point 3\"]\n        ".data ++ rbs ++
  "\n    ],\n    \"action_items\": [\n        ".data ++ lbs ++
  "\n            \"action\": \"What needs to be done\",\n            \"priority\": \"high/medium/low\",\n            \"deadline\": \"When it needs to be done (if mentioned)\",\n            \"source_email\": \"Which email this action item came from\"\n        ".data ++ rbs ++
  "\n    ],\n    \"email_categories\": ".data ++ lbs ++
  "\n        \"work\": 0,\n        \"personal\": 0, \n        \"marketing\": 0,\n        \"notifications\": 0,\n        \"other\": 0\n    ".data ++ rbs ++
  ",\n    \"processing_notes\": \"Any additional insights or observations about the email batch\"\n".data ++ rbs

/-- The prompt text before the joined record blocks. -/
def promptIntro (n : Nat) : Chars :=
  "\nPlease analyze the following ".data ++ (Nat.repr n).data ++
  " emails and provide a comprehensive summary. Focus on identifying high-priority emails and actionable items.\n\n".data

/-- The fixed instruction text after the joined record blocks. -/
def promptOutro : Chars :=
  "\n\nIMPORTANT: Respond with ONLY valid JSON. Do not include any markdown formatting, code blocks, or additional text.\n\n".data ++
  jsonTemplate ++
  "\n\nFocus on:\n1. Identifying truly important emails that require immediate attention\n2. Extracting all actionable items and tasks\n3. Categorizing emails by type\n4. Providing a comprehensive overview of the email batch\n5. Highlighting urgent matters and deadlines\n\nRemember: Return ONLY the JSON object, no additional formatting or text.\n".data

/-- `_create_batch_analysis_prompt(emails)`: the preamble with the record
count, the newline-joined numbered blocks (enumerated from 1), and the fixed
instruction text around `jsonTemplate`. -/
def createBatchAnalysisPrompt (emails : List EmailRec) : Chars :=
  promptIntro emails.length ++
  joinSep "\n".data ((List.enumFrom 1 emails).map fun p => emailBlock p.1 p.2) ++
  promptOutro

/-! ### Provider dispatch (`_call_llm_api` and the three `_call_*_api`)

The side effects of one happy-path call, in program order, as an event
trace: the admission check (`_check_rate_limits`), the `requests.post`, and
the tracker update (`_update_usage_tracker`).  Only `_call_google_api`
performs the check and the update; `_call_openai_api` and
`_call_anthropic_api` post directly. -/

/-- A side effect of one provider call. -/
inductive ApiEvent where
  | rateCheck
  | httpPost (url : Chars)
  | trackerUpdate (tokens : Nat)
deriving DecidableEq

/-- `base_urls['openai']`. -/
def openaiUrl : Chars := "https://api.openai.com/v1/chat/completions".data

/-- `base_urls['anthropic']`. -/
def anthropicUrl : Chars := "https://api.anthropic.com/v1/messages".data

/-- `base_urls['google']`. -/
def googleUrl : Chars :=
  "https://generativelanguage.googleapis.com/v1beta/models/gemini-2.0-flash-lite:generateContent".data

/-- Trace of `_call_openai_api(prompt)`: it posts directly. -/
def callOpenaiEvents (_prompt : Chars) : List ApiEvent := [.httpPost openaiUrl]

/-- Trace of `_call_anthropic_api(prompt)`: it posts directly. -/
def callAnthropicEvents (_prompt : Chars) : List ApiEvent := [.httpPost anthropicUrl]

/-- Trace of `_call_google_api(prompt)`: rate check, post, then the tracker
update with the `len(prompt) // 4` token estimate. -/
def callGoogleEvents (prompt : Chars) : List ApiEvent :=
  [.rateCheck, .httpPost googleUrl, .trackerUpdate (prompt.length / 4)]

/-- `_call_llm_api`'s dispatch on `self.provider` (`none` models the
`ValueError` for an unsupported provider). -/
def callLlmEvents (pv prompt : Chars) : Option (List ApiEvent) :=
  if pv = "openai".data then some (callOpenaiEvents prompt)
  else if pv = "anthropic".data then some (callAnthropicEvents prompt)
  else if pv = "google".data then some (callGoogleEvents prompt)
  else none

/-- Does every HTTP post in a trace have an earlier rate check?  Equivalent
to: no post occurs before the first rate check. -/
def postsAfterCheck : List ApiEvent → Bool
  | [] => true
  | .rateCheck :: _ => true
  | .httpPost _ :: _ => false
  | .trackerUpdate _ :: rest => postsAfterCheck rest

/-! ### `generate_summary_report`

The renderer consumes the analysis dict.  It is modelled on the typed
`AnalysisResult` shape that `_process_all_emails_batch` produces (all keys
present, entries well-typed), so the `dict.get` defaults for the per-entry
subfields never fire.  The two `datetime.now()` readings the renderer takes
(`strftime` for the `Generated:` line, `isoformat` for the
`Analysis timestamp:` line) are the parameters `genTs` and `isoTs`. -/

/-- One entry of `high_priority_emails`, with fields as rendered. -/
structure HighPriorityEmail where
  email_number : Chars
  subject : Chars
  sender : Chars
  priority_level : Chars
  reason_for_priority : Chars
  key_points : List Chars
deriving DecidableEq

/-- One entry of `action_items`. -/
structure ActionItem where
  action : Chars
  priority : Chars
  deadline : Chars
  source_email : Chars
deriving DecidableEq

/-- The analysis dict in its intended shape (§3 of the spec): the
renderer's input.  `email_categories` is an insertion-ordered map. -/
structure AnalysisResult where
  total_emails : Nat
  analysis_timestamp : Chars
  comprehensive_summary : Chars
  high_priority_emails : List HighPriorityEmail
  action_items : List ActionItem
  email_categories : List (Chars × Nat)
  processing_notes : Chars
  raw_emails : List EmailRec
deriving DecidableEq

/-- Python `str.lower()` (ASCII view). -/
def lowerL (s : Chars) : Chars := s.map Char.toLower

/-- Worker for `titleCase`, tracking whether the previous character was
alphabetic. -/
def titleCaseGo : Bool → Chars → Chars
  | _, [] => []
  | prevAlpha, c :: rest =>
    (if c.isAlpha then (if prevAlpha then c.toLower else c.toUpper) else c) ::
      titleCaseGo c.isAlpha rest

/-- Python `str.title()` (ASCII view): uppercase a letter after a non-letter,
lowercase the rest. -/
def titleCase (s : Chars) : Chars := titleCaseGo false s

/-- Python `int` of a digit string. -/
def digitsVal (ds : Chars) : Nat := ds.foldl (fun acc c => acc * 10 + (c.toNat - 48)) 0

/-- `re.search(r'batch of (\d+) emails?', s)`: the first position where
`batch of ` is followed by digits and then ` email` yields the digit group. -/
def batchOfCount : Chars → Option Nat
  | [] => none
  | c :: rest =>
    if "batch of ".data.isPrefixOf (c :: rest) then
      (if ((c :: rest).drop 9).takeWhile Char.isDigit ≠ [] ∧
          " email".data.isPrefixOf
            ((c :: rest).drop (9 + (((c :: rest).drop 9).takeWhile Char.isDigit).length)) then
        some (digitsVal (((c :: rest).drop 9).takeWhile Char.isDigit))
      else batchOfCount rest)
    else batchOfCount rest

/-- The `total_emails` shown in the header: the field itself, or — when it
is falsy — the count scraped from a `batch of N emails` phrase in the
lowercased summary, or 0. -/
def resolvedTotal (p : AnalysisResult) : Nat :=
  if p.total_emails = 0 then
    if containsSub "batch of".data (lowerL p.comprehensive_summary) then
      match batchOfCount (lowerL p.comprehensive_summary) with
      | some n => n
      | none => 0
    else 0
  else p.total_emails

/-- The rendered block for one high-priority entry. -/
def hpBlock (e : HighPriorityEmail) : Chars :=
  "📧 Email ".data ++ e.email_number ++ ": ".data ++ e.subject ++ "\n".data ++
  "   From: ".data ++ e.sender ++ "\n".data ++
  "   Priority: ".data ++ e.priority_level ++ "\n".data ++
  "   Reason: ".data ++ e.reason_for_priority ++ "\n".data ++
  "   Key Points: ".data ++ joinSep ", ".data e.key_points ++ "\n".data ++
  List.replicate 30 '-' ++ "\n\n".data

/-- The rendered block for one action item (numbered from 1). -/
def aiBlock (i : Nat) (a : ActionItem) : Chars :=
  (Nat.repr i).data ++ ". ".data ++ a.action ++ "\n".data ++
  "   Priority: ".data ++ a.priority ++ "\n".data ++
  "   Deadline: ".data ++ a.deadline ++ "\n".data ++
  "   Source: ".data ++ a.source_email ++ "\n".data ++
  List.replicate 20 '-' ++ "\n\n".data

/-- One `category.title(): count` line. -/
def catLine (kv : Chars × Nat) : Chars :=
  titleCase kv.1 ++ ": ".data ++ (Nat.repr kv.2).data ++ "\n".data

/-- The leading writes of the report: title block, the `Generated:` line
from the render-time clock, the resolved total, and the
`Analysis timestamp:` line — also from the render-time clock, not from the
result's `analysis_timestamp` field. -/
def reportHeader (genTs isoTs : Chars) (p : AnalysisResult) : Chars :=
  "COMPREHENSIVE EMAIL ANALYSIS REPORT\n".data ++
  (List.replicate 60 '=' ++ "\n\n".data) ++
  ("Generated: ".data ++ genTs ++ "\n".data) ++
  ("Total emails analyzed: ".data ++ (Nat.repr (resolvedTotal p)).data ++ "\n".data) ++
  ("Analysis timestamp: ".data ++ isoTs ++ "\n\n".data)

/-- The remaining writes of the report: summary, high-priority section (with
its empty-case literal), action items (with its empty-case literal), and the
category section, omitted entirely when the map is empty. -/
def reportBody (p : AnalysisResult) : Chars :=
  ("📋 COMPREHENSIVE SUMMARY\n".data ++ (List.replicate 40 '-' ++ "\n".data) ++
    p.comprehensive_summary ++ "\n\n".data) ++
  (if p.high_priority_emails = [] then
    "🚨 HIGH PRIORITY EMAILS\n".data ++ (List.replicate 40 '-' ++ "\n".data) ++
      "No high priority emails identified.\n\n".data
  else
    "🚨 HIGH PRIORITY EMAILS\n".data ++ (List.replicate 40 '-' ++ "\n".data) ++
      (p.high_priority_emails.map hpBlock).flatten) ++
  (if p.action_items = [] then
    "✅ ACTION ITEMS\n".data ++ (List.replicate 40 '-' ++ "\n".data) ++
      "No action items identified.\n\n".data
  else
    "✅ ACTION ITEMS\n".data ++ (List.replicate 40 '-' ++ "\n".data) ++
      ((List.enumFrom 1 p.action_items).map fun q => aiBlock q.1 q.2).flatten) ++
  (if p.email_categories = [] then []
  else
    "📊 EMAIL CATEGORIES\n".data ++ (List.replicate 40 '-' ++ "\n".data) ++
      (p.email_categories.map catLine).flatten ++ "\n".data)

/-- `generate_summary_report`: the full text written to (and read back from)
the report file, as a function of the two render-time clock readings and the
analysis. -/
def renderReport (genTs isoTs : Chars) (p : AnalysisResult) : Chars :=
  reportHeader genTs isoTs p ++ reportBody p

/-- A small concrete analysis used to exercise the renderer. -/
def sampleResult : AnalysisResult :=
  { total_emails := 1
    analysis_timestamp := "2025-01-01T00:00:00".data
    comprehensive_summary := "ok".data
    high_priority_emails := []
    action_items := []
    email_categories := []
    processing_notes := []
    raw_emails := [] }

/-! ### `process_emails_from_file` and `_process_all_emails_batch` -/

/-- The dict `_process_all_emails_batch` builds.  The values pulled out of
the decoded response are arbitrary decoded JSON (the model may return
anything), so those fields are `Json`. -/
structure BatchAnalysis where
  total_emails : Nat
  analysis_timestamp : Chars
  comprehensive_summary : Json
  high_priority_emails : Json
  action_items : Json
  email_categories : Json
  processing_notes : Json
  raw_emails : List EmailRec

/-- `_process_all_emails_batch(emails)` given the raw LLM response `resp`
and the `datetime.now().isoformat()` reading `ts`. -/
def processAllEmailsBatch (emails : List EmailRec) (resp ts : Chars) : BatchAnalysis :=
  { total_emails := emails.length
    analysis_timestamp := ts
    comprehensive_summary :=
      (jsonLookup (parseBatchResponse resp) csKey).getD (.str "No summary generated".data)
    high_priority_emails := (jsonLookup (parseBatchResponse resp) hpKey).getD (.arr [])
    action_items := (jsonLookup (parseBatchResponse resp) aiKey).getD (.arr [])
    email_categories := (jsonLookup (parseBatchResponse resp) ecKey).getD (.obj [])
    processing_notes := (jsonLookup (parseBatchResponse resp) pnKey).getD (.str [])
    raw_emails := emails }

/-- The two value shapes `process_emails_from_file` can return: the empty
list (every failure path) or the analysis dict (success). -/
inductive ProcessResult where
  | failureList
  | success (a : BatchAnalysis)

/-- `process_emails_from_file`: `apiKey` is the resolved `self.api_key`
(absent ⇔ empty, by Python truthiness), `fileContent` the text of the
extracted file, `llmOutcome` the result of the LLM round trip inside the
`try` (an `error` models any exception raised during batch processing), and
`ts` the timestamp reading.  Every failure path returns the empty list. -/
def processEmailsFromFile (apiKey fileContent : Chars)
    (llmOutcome : Except String Chars) (ts : Chars) : ProcessResult :=
  if apiKey = [] then .failureList
  else
    if parseExtractedFile fileContent = [] then .failureList
    else
      match llmOutcome with
      | .error _ => .failureList
      | .ok resp => .success (processAllEmailsBatch (parseExtractedFile fileContent) resp ts)

/-! ### Concrete inputs used by the theorems below -/

/-- A 300-character model response containing no brace at all. -/
def aaa300 : Chars := List.replicate 300 'a'

/-- A section with an empty `Title:` value but real content. -/
def emptyTitleSection : Chars := "1\nTitle: \nContent: hi".data

/-- A file blob whose single section has an empty title but real content. -/
def emptyTitleBlob : Chars := "EMAIL 1\nTitle: \nContent: hi".data

/-- A well-formed section with a title and content. -/
def w6 : Chars := "1\nTitle: T\nContent: c".data

/-- The record `w6` parses to. -/
def e6 : EmailRec := ⟨"T".data, "Unknown Sender".data, "Unknown Date".data, "c".data⟩

/-- A record with two characters of content. -/
def e7 : EmailRec := ⟨"T".data, "S".data, "D".data, "hi".data⟩

/-- A file blob with one parseable email record. -/
def goodBlob : Chars := "EMAIL 1\nTitle: Invoice\nContent: pay".data

/-! ## Helper lemmas about the usage tracker -/

theorem minuteReset_today (st : UsageTracker) (t : Rat) :
    (minuteReset st t).requests_today = st.requests_today := by
  unfold minuteReset; split_ifs <;> rfl

theorem requestsWait_today (st : UsageTracker) (t s1 : Rat) :
    (requestsWait st t s1).2.requests_today = st.requests_today := by
  unfold requestsWait; split_ifs <;> rfl

theorem tokensWait_today (st : UsageTracker) (t s2 : Rat) :
    (tokensWait st t s2).2.requests_today = st.requests_today := by
  unfold tokensWait; split_ifs <;> rfl

theorem minuteReset_cases (st : UsageTracker) (t : Rat) :
    minuteReset st t = st ∨
      minuteReset st t =
        { st with requests_this_minute := 0, tokens_this_minute := 0, minute_start_time := t } := by
  unfold minuteReset; split_ifs
  · exact Or.inr rfl
  · exact Or.inl rfl

theorem requestsWait_cases (st : UsageTracker) (t s1 : Rat) :
    (requestsWait st t s1).2 = st ∨
      (requestsWait st t s1).2 =
        { st with requests_this_minute := 0, tokens_this_minute := 0, minute_start_time := s1 } := by
  unfold requestsWait; split_ifs
  · exact Or.inr rfl
  · exact Or.inl rfl
  · exact Or.inl rfl

theorem tokensWait_cases (st : UsageTracker) (t s2 : Rat) :
    (tokensWait st t s2).2 = st ∨
      (tokensWait st t s2).2 =
        { st with tokens_this_minute := 0, minute_start_time := s2 } := by
  unfold tokensWait; split_ifs
  · exact Or.inr rfl
  · exact Or.inl rfl
  · exact Or.inl rfl

theorem check_error_of_daily (st : UsageTracker) (t s1 s2 : Rat)
    (h : 1000 ≤ st.requests_today) :
    checkRateLimits st t s1 s2 = ⟨[], .error dailyLimitMsg⟩ := by
  unfold checkRateLimits
  rw [if_pos (by rw [minuteReset_today]; exact h)]

theorem check_ok_state (st : UsageTracker) (t s1 s2 : Rat) (h : st.requests_today < 1000) :
    (checkRateLimits st t s1 s2).result =
      .ok (tokensWait (requestsWait (minuteReset st t) t s1).2 t s2).2 := by
  unfold checkRateLimits
  rw [if_neg (by rw [minuteReset_today]; omega)]

theorem check_ok_today (st : UsageTracker) (t s1 s2 : Rat) (st' : UsageTracker)
    (h : (checkRateLimits st t s1 s2).result = .ok st') :
    st'.requests_today = st.requests_today := by
  by_cases hd : 1000 ≤ st.requests_today
  · rw [check_error_of_daily st t s1 s2 hd] at h
    simp at h
  · rw [check_ok_state st t s1 s2 (by omega)] at h
    injection h with h
    rw [← h, tokensWait_today, requestsWait_today, minuteReset_today]

theorem check_ok_shape (st : UsageTracker) (t s1 s2 : Rat) (st' : UsageTracker)
    (h : (checkRateLimits st t s1 s2).result = .ok st') :
    st' = st ∨ (st'.tokens_this_minute = 0 ∧
      (st'.minute_start_time = t ∨ st'.minute_start_time = s1 ∨ st'.minute_start_time = s2)) := by
  by_cases hd : 1000 ≤ st.requests_today
  · rw [check_error_of_daily st t s1 s2 hd] at h
    simp at h
  · rw [check_ok_state st t s1 s2 (by omega)] at h
    injection h with h
    rcases tokensWait_cases (requestsWait (minuteReset st t) t s1).2 t s2 with hC | hC
    · rw [hC] at h
      rcases requestsWait_cases (minuteReset st t) t s1 with hB | hB
      · rw [hB] at h
        rcases minuteReset_cases st t with hA | hA
        · rw [hA] at h
          exact Or.inl h.symm
        · rw [hA] at h
          exact Or.inr ⟨by rw [← h], Or.inl (by rw [← h])⟩
      · rw [hB] at h
        exact Or.inr ⟨by rw [← h], Or.inr (Or.inl (by rw [← h]))⟩
    · rw [hC] at h
      exact Or.inr ⟨by rw [← h], Or.inr (Or.inr (by rw [← h]))⟩

theorem check_ok_of_calm (st : UsageTracker) (t s1 s2 : Rat)
    (h1 : st.requests_today < 1000) (h2 : ¬ 60 ≤ t - st.minute_start_time)
    (h3 : st.requests_this_minute < 15) (h4 : st.tokens_this_minute < 250000) :
    (checkRateLimits st t s1 s2).result = .ok st := by
  rw [check_ok_state st t s1 s2 h1]
  have hm : minuteReset st t = st := by unfold minuteReset; rw [if_neg h2]
  have hr : (requestsWait st t s1).2 = st := by
    unfold requestsWait; rw [if_neg (by omega)]
  have hk : (tokensWait st t s2).2 = st := by
    unfold tokensWait; rw [if_neg (by omega)]
  rw [hm, hr, hk]

theorem googleCallStep_ok (st : UsageTracker) (c : CallTimes) (h : st.requests_today < 1000) :
    googleCallStep st c =
      .ok (updateUsageTracker
        (tokensWait (requestsWait (minuteReset st c.t) c.t c.s1).2 c.t c.s2).2 c.tokens c.tEnd) := by
  unfold googleCallStep
  rw [check_ok_state st c.t c.s1 c.s2 h]

theorem googleCallStep_ok_today (st : UsageTracker) (c : CallTimes) (st' : UsageTracker)
    (h : googleCallStep st c = .ok st') :
    st'.requests_today = st.requests_today + 1 := by
  unfold googleCallStep at h
  cases hc : (checkRateLimits st c.t c.s1 c.s2).result with
  | error e => rw [hc] at h; simp at h
  | ok st1 =>
    rw [hc] at h
    injection h with h
    rw [← h]
    have ht := check_ok_today st c.t c.s1 c.s2 st1 hc
    simp [updateUsageTracker, ht]

theorem runCalls_ok_today : ∀ (cs : List CallTimes) (st st' : UsageTracker),
    runCalls st cs = .ok st' → st'.requests_today = st.requests_today + cs.length := by
  intro cs
  induction cs with
  | nil =>
    intro st st' h
    unfold runCalls at h
    injection h with h
    rw [← h]; rfl
  | cons c cs ih =>
    intro st st' h
    unfold runCalls at h
    cases hg : googleCallStep st c with
    | error e => rw [hg] at h; simp at h
    | ok st1 =>
      rw [hg] at h
      have h1 := googleCallStep_ok_today st c st1 hg
      have h2 := ih st1 st' h
      rw [h2, h1, List.length_cons]
      omega

theorem runCalls_ok_of_le : ∀ (cs : List CallTimes) (st : UsageTracker),
    st.requests_today + cs.length ≤ 1000 → ∃ st', runCalls st cs = .ok st' := by
  intro cs
  induction cs with
  | nil => exact fun st _ => ⟨st, rfl⟩
  | cons c cs ih =>
    intro st h
    rw [List.length_cons] at h
    have hg := googleCallStep_ok st c (by omega)
    have hupd : (updateUsageTracker
        (tokensWait (requestsWait (minuteReset st c.t) c.t c.s1).2 c.t c.s2).2
        c.tokens c.tEnd).requests_today = st.requests_today + 1 := by
      simp [updateUsageTracker, tokensWait_today, requestsWait_today, minuteReset_today]
    obtain ⟨st', hrun⟩ := ih _ (by rw [hupd]; omega)
    refine ⟨st', ?_⟩
    unfold runCalls
    rw [hg]
    exact hrun

/-! ## Claims about the usage tracker: C2, C4, C10 -/

/-- C2 counterexample.  A reachable step of `_check_rate_limits` advances
`minute_start_time` while zeroing only `tokens_this_minute`: starting from
the fresh tracker, one admitted call with a 250000-token estimate leads to a
state `⟨1, 250000, 1, 5, 0⟩`; the next check (10s into the window) takes the
token-cap wait, and the resulting state `⟨1, 0, 1, 5, 60⟩` has an advanced
`minute_start_time` with `requests_this_minute` still 1 — the two minute
counters are not zeroed together, refuting the claimed invariant. -/
theorem c2_counterexample :
    resultOk? (checkRateLimits (initTracker 0) 0 0 0) = some (initTracker 0) ∧
    updateUsageTracker (initTracker 0) 250000 5 = ⟨1, 250000, 1, 5, 0⟩ ∧
    resultOk? (checkRateLimits ⟨1, 250000, 1, 5, 0⟩ 10 20 60) = some ⟨1, 0, 1, 5, 60⟩ ∧
    (⟨1, 0, 1, 5, 60⟩ : UsageTracker).minute_start_time ≠
      (⟨1, 250000, 1, 5, 0⟩ : UsageTracker).minute_start_time ∧
    (⟨1, 0, 1, 5, 60⟩ : UsageTracker).requests_this_minute =
      (⟨1, 250000, 1, 5, 0⟩ : UsageTracker).requests_this_minute ∧
    (⟨1, 250000, 1, 5, 0⟩ : UsageTracker).requests_this_minute ≠ 0 := by
  refine ⟨?_, ?_, ?_, by norm_num, rfl, by norm_num⟩
  · have h := check_ok_of_calm (initTracker 0) 0 0 0 (by norm_num [initTracker])
      (by norm_num [initTracker]) (by norm_num [initTracker]) (by norm_num [initTracker])
    simp [resultOk?, h]
  · norm_num [updateUsageTracker, initTracker]
  · have h1 : minuteReset ⟨1, 250000, 1, 5, 0⟩ 10 = ⟨1, 250000, 1, 5, 0⟩ := by
      unfold minuteReset; rw [if_neg (by norm_num)]
    have h2 : (requestsWait ⟨1, 250000, 1, 5, 0⟩ 10 20).2 = ⟨1, 250000, 1, 5, 0⟩ := by
      unfold requestsWait; rw [if_neg (by norm_num)]
    have h3 : (tokensWait ⟨1, 250000, 1, 5, 0⟩ 10 60).2 = ⟨1, 0, 1, 5, 60⟩ := by
      unfold tokensWait; rw [if_pos (by norm_num), if_pos (by norm_num)]
    have hres : (checkRateLimits ⟨1, 250000, 1, 5, 0⟩ 10 20 60).result = .ok ⟨1, 0, 1, 5, 60⟩ := by
      rw [check_ok_state _ _ _ _ (by norm_num), h1, h2, h3]
    simp [resultOk?, hres]

/-- C2, amended.  `_update_usage_tracker` never moves `minute_start_time`;
`_check_rate_limits` never moves it backwards (for monotone clock readings)
and whenever it moves `minute_start_time`, `tokens_this_minute` is zeroed in
the same step — but `requests_this_minute` need not be (see the
counterexample): only the minute-window reset and the request-cap wait zero
both counters together; the token-cap wait zeroes the token counter alone. -/
theorem c2_amended :
    (∀ (st : UsageTracker) (tokens : Nat) (t : Rat),
      (updateUsageTracker st tokens t).minute_start_time = st.minute_start_time) ∧
    ∀ (st : UsageTracker) (t s1 s2 : Rat) (st' : UsageTracker),
      st.minute_start_time ≤ t → t ≤ s1 → s1 ≤ s2 →
      (checkRateLimits st t s1 s2).result = .ok st' →
      st.minute_start_time ≤ st'.minute_start_time ∧
      (st'.minute_start_time ≠ st.minute_start_time → st'.tokens_this_minute = 0) := by
  refine ⟨fun _ _ _ => rfl, ?_⟩
  intro st t s1 s2 st' h1 h2 h3 hok
  rcases check_ok_shape st t s1 s2 st' hok with he | ⟨htok, hms⟩
  · subst he
    exact ⟨le_refl _, fun hne => absurd rfl hne⟩
  · refine ⟨?_, fun _ => htok⟩
    rcases hms with hm | hm | hm <;> rw [hm] <;> linarith

/-- C2 witness: the amended theorem applied at a concrete state and clock. -/
theorem c2_amended_witness :
    (initTracker 3).minute_start_time ≤ (initTracker 3).minute_start_time ∧
    ((initTracker 3).minute_start_time ≠ (initTracker 3).minute_start_time →
      (initTracker 3).tokens_this_minute = 0) :=
  c2_amended.2 (initTracker 3) 3 3 3 (initTracker 3)
    (by norm_num [initTracker]) (le_refl 3) (le_refl 3)
    (check_ok_of_calm (initTracker 3) 3 3 3 (by norm_num [initTracker])
      (by norm_num [initTracker]) (by norm_num [initTracker]) (by norm_num [initTracker]))

/-- C4.  When `requests_today` has reached 1000 at the start of an admission
check, `_check_rate_limits` raises the daily-limit error without sleeping;
and after any run of 1000 successful admitted calls from the fresh tracker,
the next admission check raises that error. -/
theorem c4_daily_quota :
    (∀ (st : UsageTracker) (t s1 s2 : Rat), 1000 ≤ st.requests_today →
      checkRateLimits st t s1 s2 = ⟨[], .error dailyLimitMsg⟩) ∧
    ∀ (t0 : Rat) (cs : List CallTimes) (st : UsageTracker) (t s1 s2 : Rat),
      cs.length = 1000 → runCalls (initTracker t0) cs = .ok st →
      (checkRateLimits st t s1 s2).result = .error dailyLimitMsg := by
  refine ⟨check_error_of_daily, ?_⟩
  intro t0 cs st t s1 s2 hlen hrun
  have h := runCalls_ok_today cs (initTracker t0) st hrun
  have h1000 : 1000 ≤ st.requests_today := by
    rw [h, hlen]
    norm_num [initTracker]
  rw [check_error_of_daily st t s1 s2 h1000]

/-- C4 witness: a concrete run of 1000 successful calls from the fresh
tracker, after which the admission check fails with the daily-quota error;
plus the immediate-failure half at a concrete saturated state. -/
theorem c4_daily_quota_witness :
    ∃ st, runCalls (initTracker 0) (List.replicate 1000 ⟨0, 0, 0, 0, 0⟩) = .ok st ∧
      (checkRateLimits st 0 0 0).result = .error dailyLimitMsg ∧
      checkRateLimits ⟨0, 0, 1000, 0, 0⟩ 1 2 3 = ⟨[], .error dailyLimitMsg⟩ := by
  obtain ⟨st, hrun⟩ := runCalls_ok_of_le (List.replicate 1000 ⟨0, 0, 0, 0, 0⟩)
    (initTracker 0) (by rw [List.length_replicate]; norm_num [initTracker])
  exact ⟨st, hrun,
    c4_daily_quota.2 0 _ st 0 0 0 (List.length_replicate 1000 _) hrun,
    c4_daily_quota.1 ⟨0, 0, 1000, 0, 0⟩ 1 2 3 (le_refl 1000)⟩

/-- C10.  `requests_today` is monotone over the instance's lifetime: a
successful admission check leaves it unchanged, the tracker update adds
exactly one, and once it has reached the 1000 cap every admission check on
the same instance fails with the daily-limit error, regardless of the clock
readings. -/
theorem c10_monotone :
    (∀ (st : UsageTracker) (t s1 s2 : Rat) (st' : UsageTracker),
      (checkRateLimits st t s1 s2).result = .ok st' →
      st'.requests_today = st.requests_today) ∧
    (∀ (st : UsageTracker) (tokens : Nat) (t : Rat),
      (updateUsageTracker st tokens t).requests_today = st.requests_today + 1) ∧
    ∀ (st : UsageTracker) (t s1 s2 : Rat), 1000 ≤ st.requests_today →
      (checkRateLimits st t s1 s2).result = .error dailyLimitMsg := by
  refine ⟨check_ok_today, fun _ _ _ => rfl, ?_⟩
  intro st t s1 s2 h
  rw [check_error_of_daily st t s1 s2 h]

/-- C10 witness: the three parts applied at concrete states. -/
theorem c10_witness :
    (initTracker 0).requests_today = (initTracker 0).requests_today ∧
    (updateUsageTracker (initTracker 0) 2 3).requests_today = (initTracker 0).requests_today + 1 ∧
    (checkRateLimits ⟨0, 0, 1000, 0, 0⟩ 99 99 99).result = .error dailyLimitMsg :=
  ⟨c10_monotone.1 (initTracker 0) 0 0 0 (initTracker 0)
      (check_ok_of_calm (initTracker 0) 0 0 0 (by norm_num [initTracker])
        (by norm_num [initTracker]) (by norm_num [initTracker]) (by norm_num [initTracker])),
   c10_monotone.2.1 (initTracker 0) 2 3,
   c10_monotone.2.2 ⟨0, 0, 1000, 0, 0⟩ 99 99 99 (le_refl 1000)⟩

/-! ## Helper lemmas about the response parser -/

theorem hasKeys_mkFallbackObj (summary : Json) (notes : Chars) :
    hasAnalysisKeys (mkFallbackObj summary notes) = true := rfl

theorem lookup_mkFallbackObj_cs (summary : Json) (notes : Chars) :
    jsonLookup (mkFallbackObj summary notes) csKey = some summary := rfl

theorem hasKeys_decodeErrBranch (r : Chars) :
    hasAnalysisKeys (decodeErrBranch r) = true := by
  unfold decodeErrBranch
  cases extractedSummary r
  · exact hasKeys_mkFallbackObj _ _
  · exact hasKeys_mkFallbackObj _ _

theorem hasKeys_noBraceBranch (r : Chars) :
    hasAnalysisKeys (noBraceBranch r) = true :=
  hasKeys_mkFallbackObj _ _

/-! ## Claims about the response parser: C1, C5 -/

/-- C1 counterexample.  On the input `"{}"` — valid JSON — the parser
returns the decoded object unchanged, and that mapping contains none of
`high_priority_emails`, `action_items`, `email_categories`, refuting the
claim that the returned mapping always holds non-null values for those
keys. -/
theorem c1_counterexample :
    parseBatchResponse [lbrace, rbrace] = Json.obj [] ∧
    jsonLookup (parseBatchResponse [lbrace, rbrace]) hpKey = none ∧
    jsonLookup (parseBatchResponse [lbrace, rbrace]) aiKey = none ∧
    jsonLookup (parseBatchResponse [lbrace, rbrace]) ecKey = none :=
  ⟨rfl, rfl, rfl, rfl⟩

/-- C1, amended.  `_parse_batch_response` is total (it returns for every
input; the embedding is a total function and the Python `except` clause
covers the only exception the `try` can raise); whenever the brace-guarded
`json.loads` attempt fails or is skipped, the returned mapping carries
non-null `high_priority_emails`, `action_items` and `email_categories`; but
when the attempt succeeds the decoded object is returned as-is and may lack
those keys (see the counterexample). -/
theorem c1_amended (resp : Chars) :
    (attemptJson resp).elim (hasAnalysisKeys (parseBatchResponse resp) = true)
      (fun v => parseBatchResponse resp = v) := by
  unfold attemptJson parseBatchResponse
  by_cases hb : (containsChar lbrace (stripFences resp) &&
      containsChar rbrace (stripFences resp)) = true
  · rw [if_pos hb, if_pos hb]
    cases hj : jsonLoads (jsonCandidate (stripFences resp)) with
    | none =>
      simp only [Option.elim]
      exact hasKeys_decodeErrBranch _
    | some v => simp only [Option.elim]
  · rw [if_neg hb, if_neg hb]
    simp only [Option.elim]
    exact hasKeys_noBraceBranch _

set_option maxRecDepth 4000 in
/-- C5 counterexample.  For a 300-character response with no braces, the
parser takes the no-brace fallback, whose 500-character bound does not fire:
the summary is the whole response, not the first 200 characters plus
ellipsis as the claim states. -/
theorem c5_counterexample :
    jsonLookup (parseBatchResponse aaa300) csKey = some (.str aaa300) ∧
    aaa300 ≠ aaa300.take 200 ++ ellipsisL :=
  ⟨rfl, by decide⟩

/-- C5, amended.  A response with no braces (and no ```` ```json ````
fence) yields a summary equal to the whole response when it is at most 500
characters, and to the first 500 characters plus ellipsis otherwise; the
200-character truncation belongs to the decode-error branch, which requires
both braces to be present. -/
theorem c5_amended (r : Chars) (h1 : containsSub fenceJsonL r = false)
    (h2 : containsChar lbrace r = false) (_h3 : containsChar rbrace r = false) :
    jsonLookup (parseBatchResponse r) csKey =
      some (.str (if 500 < r.length then r.take 500 ++ ellipsisL else r)) := by
  have hs : stripFences r = r := by
    unfold stripFences
    rw [if_neg (by simp [h1])]
  unfold parseBatchResponse
  rw [hs, h2]
  rw [if_neg (by simp)]
  exact lookup_mkFallbackObj_cs _ _

/-- C5 witness: the amended theorem at a concrete short brace-free input. -/
theorem c5_amended_witness :
    jsonLookup (parseBatchResponse "hello".data) csKey =
      some (.str (if 500 < "hello".data.length then "hello".data.take 500 ++ ellipsisL
        else "hello".data)) :=
  c5_amended "hello".data (by decide) (by decide) (by decide)

/-! ## Claim about provider dispatch: C3 -/

/-- C3 counterexample.  `_call_openai_api` issues its HTTP post with no
admission check anywhere in its trace, so it is false that every provider
variant checks rate limits before sending. -/
theorem c3_counterexample :
    callLlmEvents "openai".data [] = some [ApiEvent.httpPost openaiUrl] ∧
    postsAfterCheck [ApiEvent.httpPost openaiUrl] = false ∧
    ¬ ∀ evs, callLlmEvents "openai".data [] = some evs → postsAfterCheck evs = true := by
  refine ⟨rfl, rfl, fun h => ?_⟩
  have hfalse := h [ApiEvent.httpPost openaiUrl] rfl
  simp [postsAfterCheck] at hfalse

/-- C3, amended.  Only the `google` variant calls the admission check before
its HTTP post (and passes the `len(prompt) // 4` estimate to the post-send
tracker update); the `openai` and `anthropic` variants post without any
admission check in their traces. -/
theorem c3_amended (prompt : Chars) :
    callLlmEvents "google".data prompt = some (callGoogleEvents prompt) ∧
    postsAfterCheck (callGoogleEvents prompt) = true ∧
    ApiEvent.trackerUpdate (prompt.length / 4) ∈ callGoogleEvents prompt ∧
    callLlmEvents "openai".data prompt = some (callOpenaiEvents prompt) ∧
    postsAfterCheck (callOpenaiEvents prompt) = false ∧
    ApiEvent.rateCheck ∉ callOpenaiEvents prompt ∧
    callLlmEvents "anthropic".data prompt = some (callAnthropicEvents prompt) ∧
    postsAfterCheck (callAnthropicEvents prompt) = false ∧
    ApiEvent.rateCheck ∉ callAnthropicEvents prompt := by
  refine ⟨rfl, rfl, ?_, rfl, rfl, ?_, rfl, rfl, ?_⟩
  · simp [callGoogleEvents]
  · simp [callOpenaiEvents]
  · simp [callAnthropicEvents]

/-! ## Claim about the record parser: C6 -/

/-- C6 counterexample.  A section whose `Title:` value is empty but whose
content is the non-empty `hi` is dropped (the parse of the whole blob yields
no records), refuting the claim that a section with usable content is
kept. -/
theorem c6_counterexample :
    sectionContent emptyTitleSection = "hi".data ∧
    stripL emptyTitleSection ≠ [] ∧
    parseSection emptyTitleSection = none ∧
    parseExtractedFile emptyTitleBlob = [] := by
  decide

/-- C6, amended.  A section is dropped exactly when it is whitespace-only or
its extracted title is empty or its extracted content is empty — i.e. it is
kept only when title and content are both non-empty (the absent-label
defaults are non-empty, so a section missing both labels is kept); a kept
section carries exactly the four extracted fields, and parsing one section
never aborts the blob (the embedding is total per section). -/
theorem c6_amended (s : Chars) :
    (parseSection s = none ↔
      stripL s = [] ∨ sectionTitle s = [] ∨ sectionContent s = []) ∧
    ∀ e, parseSection s = some e →
      e = ⟨sectionTitle s, sectionSender s, sectionDate s, sectionContent s⟩ := by
  constructor
  · unfold parseSection
    split_ifs with h1 h2
    · simp [h1]
    · simp [h1, h2.1, h2.2]
    · simp [h1]
      tauto
  · intro e he
    unfold parseSection at he
    split_ifs at he with h1 h2
    · injection he with he
      exact he.symm

/-- C6 witness: the amended theorem's kept case at a concrete section. -/
theorem c6_amended_witness :
    parseSection w6 = some e6 ∧
    e6 = ⟨sectionTitle w6, sectionSender w6, sectionDate w6, sectionContent w6⟩ :=
  ⟨by decide, (c6_amended w6).2 e6 (by decide)⟩

/-! ## Claim about the prompt builder: C7 -/

theorem joinSep_infix (sep : Chars) : ∀ (bs : List Chars) (b : Chars), b ∈ bs →
    ∃ u v, joinSep sep bs = u ++ (b ++ v) := by
  intro bs
  induction bs with
  | nil => intro b hb; cases hb
  | cons x rest ih =>
    intro b hb
    cases hb with
    | head =>
      cases rest with
      | nil => exact ⟨[], [], by simp [joinSep]⟩
      | cons y ys => exact ⟨[], sep ++ joinSep sep (y :: ys), by simp [joinSep]⟩
    | tail _ hmem =>
      cases rest with
      | nil => cases hmem
      | cons y ys =>
        obtain ⟨u, v, hu⟩ := ih b hmem
        exact ⟨x ++ sep ++ u, v, by simp [joinSep, hu, List.append_assoc]⟩

/-- C7 counterexample.  A record whose content is the 2-character `hi` (well
within the 500-character bound) is emitted with the `...` marker appended:
the rendered block is the spec's marker-free block with `...` after it, so
the marker is not reserved for over-long content. -/
theorem c7_counterexample :
    e7.text.length ≤ 500 ∧
    emailBlock 1 e7 ≠ specBlockNoMarker 1 e7 ∧
    emailBlock 1 e7 = specBlockNoMarker 1 e7 ++ ellipsisL := by
  decide

/-- C7, amended.  Each enumerated record's block appears inside the built
prompt with the record's content truncated to its first 500 characters and
the `...` marker appended unconditionally; content of at most 500 characters
is emitted whole (but still followed by the marker). -/
theorem c7_amended (emails : List EmailRec) (i : Nat) (e : EmailRec)
    (h : (i, e) ∈ List.enumFrom 1 emails) :
    (∃ u v, createBatchAnalysisPrompt emails = u ++ ((e.text.take 500 ++ ellipsisL) ++ v)) ∧
    (e.text.take 500).length ≤ 500 ∧
    (e.text.length ≤ 500 → e.text.take 500 = e.text) := by
  refine ⟨?_, by rw [List.length_take]; omega, fun hle => List.take_of_length_le hle⟩
  have hmem : emailBlock i e ∈ (List.enumFrom 1 emails).map (fun p => emailBlock p.1 p.2) :=
    List.mem_map.mpr ⟨(i, e), h, rfl⟩
  obtain ⟨u, v, hu⟩ := joinSep_infix "\n".data _ _ hmem
  refine ⟨promptIntro emails.length ++ u ++ emailBlockHead i e, v ++ promptOutro, ?_⟩
  unfold createBatchAnalysisPrompt
  rw [hu]
  simp [emailBlock, List.append_assoc]

/-- C7 witness: the amended theorem at a concrete one-record list. -/
theorem c7_amended_witness :
    (∃ u v, createBatchAnalysisPrompt [e7] = u ++ ((e7.text.take 500 ++ ellipsisL) ++ v)) ∧
    (e7.text.take 500).length ≤ 500 ∧
    (e7.text.length ≤ 500 → e7.text.take 500 = e7.text) :=
  c7_amended [e7] 1 e7 (by decide)

/-! ## Claim about the report renderer: C8 -/

/-- C8 counterexample.  Two renderings of the same `AnalysisResult` differ
when the render-time clock readings differ: the `Generated:` and
`Analysis timestamp:` lines come from `datetime.now()` at render time, not
from timestamp fields carried inside the result, refuting the claim as
stated. -/
theorem c8_counterexample :
    renderReport "A".data "B".data sampleResult ≠
      renderReport "C".data "D".data sampleResult := by
  decide

/-- C8, amended.  The renderer is deterministic as a function of the result
and the render-time clock readings: the result's own `analysis_timestamp`
field never influences the output, and renderings at different clock
readings agree on everything after the header (the whole body is a function
of the result alone). -/
theorem c8_amended :
    (∀ (genTs isoTs : Chars) (p : AnalysisResult) (c c' : Chars),
      renderReport genTs isoTs { p with analysis_timestamp := c } =
        renderReport genTs isoTs { p with analysis_timestamp := c' }) ∧
    ∀ (genTs isoTs genTs2 isoTs2 : Chars) (p : AnalysisResult),
      ∃ u u', renderReport genTs isoTs p = u ++ reportBody p ∧
        renderReport genTs2 isoTs2 p = u' ++ reportBody p :=
  ⟨fun _ _ _ _ _ => rfl,
   fun g i g2 i2 p => ⟨reportHeader g i p, reportHeader g2 i2 p, rfl, rfl⟩⟩

/-! ## Claim about the public entry point: C9 -/

/-- C9.  `process_emails_from_file` returns the empty list exactly when the
API key is absent, or the parsed file yields no records, or the batch
processing raises; only on full success does it return the analysis mapping
built from the parsed records and the response.  The embedding is a total
function (the Python function catches every exception of its `try` block and
`_parse_extracted_file` catches its own), and the failure and success values
are different constructors of the result type, mirroring the list/dict type
split. -/
theorem c9_entry_point (apiKey fileContent : Chars) (llmOutcome : Except String Chars)
    (ts : Chars) :
    (processEmailsFromFile apiKey fileContent llmOutcome ts = .failureList ↔
      apiKey = [] ∨ parseExtractedFile fileContent = [] ∨ ∃ e, llmOutcome = .error e) ∧
    ∀ resp, apiKey ≠ [] → parseExtractedFile fileContent ≠ [] → llmOutcome = .ok resp →
      processEmailsFromFile apiKey fileContent llmOutcome ts =
        .success (processAllEmailsBatch (parseExtractedFile fileContent) resp ts) := by
  constructor
  · unfold processEmailsFromFile
    split_ifs with h1 h2
    · simp [h1]
    · simp [h2]
    · cases llmOutcome with
      | error e =>
        simp only [true_iff]
        exact Or.inr (Or.inr ⟨e, rfl⟩)
      | ok resp => simp [h1, h2]
  · intro resp hk hp hok
    subst hok
    unfold processEmailsFromFile
    rw [if_neg hk, if_neg hp]

/-- C9 witness: a concrete failure path (absent key) and a concrete success
path. -/
theorem c9_witness :
    processEmailsFromFile [] goodBlob (.ok []) [] = .failureList ∧
    processEmailsFromFile "k".data goodBlob (.ok "resp".data) "ts".data =
      .success (processAllEmailsBatch (parseExtractedFile goodBlob) "resp".data "ts".data) :=
  ⟨(c9_entry_point [] goodBlob (.ok []) []).1.mpr (Or.inl rfl),
   (c9_entry_point "k".data goodBlob (.ok "resp".data) "ts".data).2 "resp".data
     (by decide) (by decide) rfl⟩

end EmailLLM
